import Mathlib

/-!
Shallow embedding of the simpleviper package (simpleviper.go): a Viperlet
binds a pflag FlagSet, environment variables and an optional configuration
file to a layered value store (the viper collaborator), then writes each
resolved non-empty value back into the flag set.

The pflag and viper libraries are external collaborators; they are modelled
here from the spec "contract" they are documented to honour: a flag is a
named string holder with a default and a changed bit, and the store resolves
a key through the layers changed-flag > environment > config file > flag
default.  The Viperlet structure, its option constructors and the Init
control flow are translated directly from simpleviper.go.
-/

/-- Modelled from the spec: a pflag flag is a named, typed setting with a
compiled-in default; `changed` records whether the command line set it
(pflag `PFlag.Changed`), and `value` is its current textual value. -/
structure PFlag where
  name : String
  value : String
  defValue : String
  changed : Bool
deriving DecidableEq, Repr

/-- Modelled from the spec: a pflag FlagSet is a collection of flags, used
only to enumerate flags and to get or set a value by name. -/
abbrev FlagSet := List PFlag

/-- Look up the flag with the given name (pflag `FlagSet.Lookup`). -/
def lookupFlag (fs : FlagSet) (k : String) : Option PFlag :=
  fs.find? (fun f => f.name == k)

/-- Modelled from the spec: a snapshot of the process environment, the
variables that are set together with their (possibly empty) values. -/
abbrev EnvMap := List (String × String)

/-- Look up an environment variable in the snapshot; `some ""` means the
variable is set but empty. -/
def lookupEnv (env : EnvMap) (k : String) : Option String :=
  (env.find? (fun p => p.1 == k)).map (fun p => p.2)

/-- Association-list lookup, used for the parsed configuration file data. -/
def lookupKV (m : List (String × String)) (k : String) : Option String :=
  (m.find? (fun p => p.1 == k)).map (fun p => p.2)

/-- Modelled from the spec: the outcome of reading and parsing the
configuration file at a given path (viper `ReadInConfig`): the file is
missing, it fails to read or parse, or it parses to key/value data. -/
inductive FileRead where
  | missing
  | readFailed
  | ok (data : List (String × String))
deriving DecidableEq, Repr

/-- Modelled from the spec: the file system, as the resolver sees it — what
reading a given path yields. -/
abbrev FileSys := String → FileRead

/-- ASCII uppercasing of a string, the store collaborator's convention for
deriving environment variable names from keys. -/
def upperAscii (s : String) : String :=
  ⟨s.data.map Char.toUpper⟩

/-- Modelled from the spec: the state of the layered value store (the viper
collaborator) as simpleviper uses it: the bound flags (`BindPFlags`),
whether automatic environment lookup is on (`AutomaticEnv`), the
environment prefix and key-rewrite rule, and the parsed config file data. -/
structure ViperState where
  pflags : List PFlag := []
  envEnabled : Bool := false
  envPrefix : String := ""
  envKeyReplacer : Option (String → String) := none
  configData : List (String × String) := []

/-- Modelled from the spec: the environment variable name the store derives
for a key — the prefix (when set) joined with an underscore, uppercased,
then rewritten by the key replacer when one is set. -/
def ViperState.envVarName (st : ViperState) (key : String) : String :=
  let merged := if st.envPrefix != "" then st.envPrefix ++ "_" ++ key else key
  let upper := upperAscii merged
  match st.envKeyReplacer with
  | some r => r upper
  | none => upper

/-- Modelled from the spec: the store's layered lookup for a key, precedence
changed-flag > environment > configuration file > flag default; the flag
default layer is consulted only when `useFlagDefault` is true (viper's
`find`, where `IsSet` passes false and `Get` passes true). -/
def ViperState.find (st : ViperState) (env : EnvMap) (key : String)
    (useFlagDefault : Bool) : Option String :=
  let flag := lookupFlag st.pflags key
  let fromFlag := flag.bind (fun f => if f.changed then some f.value else none)
  let fromEnv := if st.envEnabled then lookupEnv env (st.envVarName key) else none
  let fromConfig := lookupKV st.configData key
  let fromDefault := if useFlagDefault then flag.map (fun f => f.defValue) else none
  ((fromFlag.or fromEnv).or fromConfig).or fromDefault

/-- Modelled from the spec: viper `IsSet` — the key resolves in some layer,
flag defaults excluded. -/
def ViperState.IsSet (st : ViperState) (env : EnvMap) (key : String) : Bool :=
  (st.find env key false).isSome

/-- Modelled from the spec: viper `GetString` — the resolved value as text,
empty when nothing resolves. -/
def ViperState.GetString (st : ViperState) (env : EnvMap) (key : String) : String :=
  (st.find env key true).getD ""

/-- The Viperlet structure of simpleviper.go: the wrapped store (possibly
not yet created) and the option-set fields. -/
structure Viperlet where
  viper : Option ViperState := none
  bindEnv : Bool := false
  envPrefix : String := ""
  envKeyReplacer : Option (String → String) := none
  configFile : String := ""
  allowMissingConfig : Bool := false

/-- The recognized options of simpleviper.go (the `Option` function type,
as the six constructors the package exports). -/
inductive VOption where
  | withViper (vp : ViperState)
  | withEnv
  | withEnvPrefix (p : String)
  | withEnvKeyReplacer (r : String → String)
  | withConfig (config : String)
  | withOptionalConfig (config : String)

/-- WithViper: pass your own store instance. -/
def WithViper (vp : ViperState) (v : Viperlet) : Viperlet :=
  { v with viper := some vp }

/-- WithEnv: enable environment variable binding. -/
def WithEnv (v : Viperlet) : Viperlet :=
  { v with bindEnv := true }

/-- WithEnvPrefix: enable environment variable binding with a prefix. -/
def WithEnvPrefix (p : String) (v : Viperlet) : Viperlet :=
  { v with bindEnv := true, envPrefix := p }

/-- WithEnvKeyReplacer: enable environment variable binding with a key
rewrite rule. -/
def WithEnvKeyReplacer (r : String → String) (v : Viperlet) : Viperlet :=
  { v with bindEnv := true, envKeyReplacer := some r }

/-- WithConfig: read the given config file; every error, a missing file
included, is a failure. -/
def WithConfig (config : String) (v : Viperlet) : Viperlet :=
  { v with configFile := config, allowMissingConfig := false }

/-- WithOptionalConfig: read the given config file; a missing file is not
fatal. -/
def WithOptionalConfig (config : String) (v : Viperlet) : Viperlet :=
  { v with configFile := config, allowMissingConfig := true }

/-- Apply one option to a Viperlet (an `Option` is a function mutating the
Viperlet). -/
def VOption.apply : VOption → Viperlet → Viperlet
  | .withViper vp => WithViper vp
  | .withEnv => WithEnv
  | .withEnvPrefix p => WithEnvPrefix p
  | .withEnvKeyReplacer r => WithEnvKeyReplacer r
  | .withConfig c => WithConfig c
  | .withOptionalConfig c => WithOptionalConfig c

/-- New of simpleviper.go: start from the zero Viperlet and apply the
options in the order given. -/
def New (opts : List VOption) : Viperlet :=
  opts.foldl (fun v o => o.apply v) {}

/-- The errors Init can return from the config-file step (the viper read
error, classified as file-not-found or any other read/parse failure). -/
inductive InitError where
  | configFileNotFound
  | configReadFailed
deriving DecidableEq, Repr

/-- Outcome of Init: normal return carrying the written-back flag set and
the final store; an error return carrying the (untouched) flag set as it
stood; or the nil-pointer dereference reached when the write-back step
visits a nil flag set. -/
inductive InitResult where
  | ok (flags : FlagSet) (store : ViperState)
  | error (e : InitError) (flags : Option FlagSet)
  | nilDeref

/-- Steps 1 and 2 of Init: bind the flag set to the (lazily created) store
when it is non-nil, then configure the environment layer when `bindEnv` is
set — `SetEnvPrefix` only for a non-empty prefix, `SetEnvKeyReplacer` only
for a non-nil replacer, then `AutomaticEnv`. -/
def Viperlet.preState (v : Viperlet) (flagset : Option FlagSet) : ViperState :=
  let st0 := v.viper.getD {}
  let st1 := match flagset with
    | some fs => { st0 with pflags := fs }
    | none => st0
  if v.bindEnv then
    { st1 with
      envEnabled := true
      envPrefix := if v.envPrefix != "" then v.envPrefix else st1.envPrefix
      envKeyReplacer :=
        if v.envKeyReplacer.isSome then v.envKeyReplacer else st1.envKeyReplacer }
  else st1

/-- Step 3 of Init: when a config file is set, read it into the store; on a
read error, return it unless missing-config is allowed, in which case only
a not-found error is tolerated (the file layer is simply absent). -/
def Viperlet.configStep (v : Viperlet) (st : ViperState) (fsys : FileSys) :
    Except InitError ViperState :=
  if v.configFile != "" then
    match fsys v.configFile with
    | .ok data => .ok { st with configData := data }
    | .missing =>
        if !v.allowMissingConfig then .error .configFileNotFound
        else .ok st
    | .readFailed =>
        if !v.allowMissingConfig then .error .configReadFailed
        else .error .configReadFailed
  else .ok st

/-- Step 4 of Init on one flag: when the store resolves the flag's name and
the resolved text is non-empty, set the flag to it (pflag `Set` records the
value and marks the flag changed); otherwise leave the flag alone. -/
def writeBackFlag (st : ViperState) (env : EnvMap) (f : PFlag) : PFlag :=
  if st.IsSet env f.name && st.GetString env f.name != "" then
    { f with value := st.GetString env f.name, changed := true }
  else f

/-- Step 4 of Init: `VisitAll` over the flag set, applying the write-back
to every flag. -/
def writeBack (st : ViperState) (env : EnvMap) (fs : FlagSet) : FlagSet :=
  fs.map (writeBackFlag st env)

/-- Init of simpleviper.go: bind the flag set (guarded against nil), bind
the environment, read the config file, then visit all flags of `flagset`
unconditionally to write resolved values back.  A nil flag set reaching the
final `VisitAll` dereferences the nil pointer (pflag's `VisitAll` reads a
field of its receiver). -/
def Viperlet.Init (v : Viperlet) (env : EnvMap) (fsys : FileSys)
    (flagset : Option FlagSet) : InitResult :=
  match v.configStep (v.preState flagset) fsys with
  | .error e => .error e flagset
  | .ok st =>
    match flagset with
    | none => InitResult.nilDeref
    | some fs => .ok (writeBack st env fs) st

/-! Helper lemmas about the run shape of `Init`. -/

theorem writeBackFlag_name (st : ViperState) (env : EnvMap) (f : PFlag) :
    (writeBackFlag st env f).name = f.name := by
  unfold writeBackFlag; split <;> rfl

theorem lookupFlag_writeBack (st : ViperState) (env : EnvMap) (fs : FlagSet)
    (k : String) :
    lookupFlag (writeBack st env fs) k = (lookupFlag fs k).map (writeBackFlag st env) := by
  unfold lookupFlag writeBack
  rw [List.find?_map]
  have hp : ((fun f => f.name == k) ∘ writeBackFlag st env)
      = (fun (f : PFlag) => f.name == k) := by
    funext f
    simp [Function.comp, writeBackFlag_name]
  rw [hp]

theorem lookupFlag_name (fs : FlagSet) (k : String) (f : PFlag)
    (h : lookupFlag fs k = some f) : f.name = k := by
  unfold lookupFlag at h
  simpa using List.find?_some h

theorem preState_pflags (v : Viperlet) (fs : FlagSet) :
    (v.preState (some fs)).pflags = fs := by
  unfold Viperlet.preState
  split
  · rename_i fs2 heq
    cases heq
    split <;> rfl
  · rename_i heq
    cases heq

theorem preState_envEnabled (v : Viperlet) (fso : Option FlagSet)
    (h : v.bindEnv = true) : (v.preState fso).envEnabled = true := by
  unfold Viperlet.preState
  rw [h]
  simp

theorem configStep_ok_frame (v : Viperlet) (st st' : ViperState) (fsys : FileSys)
    (h : v.configStep st fsys = .ok st') :
    st' = { st with configData := st'.configData } := by
  unfold Viperlet.configStep at h
  split at h
  · split at h
    · cases h; rfl
    · split at h
      · exact absurd h (by simp)
      · cases h; rfl
    · split at h <;> exact absurd h (by simp)
  · cases h; rfl

theorem init_ok_inv (v : Viperlet) (env : EnvMap) (fsys : FileSys)
    (fs out : FlagSet) (st : ViperState)
    (h : v.Init env fsys (some fs) = InitResult.ok out st) :
    v.configStep (v.preState (some fs)) fsys = .ok st ∧ out = writeBack st env fs := by
  unfold Viperlet.Init at h
  split at h
  · exact absurd h (by simp)
  · rename_i st1 heq
    cases h
    exact ⟨heq, rfl⟩

theorem init_ok_pflags (v : Viperlet) (env : EnvMap) (fsys : FileSys)
    (fs out : FlagSet) (st : ViperState)
    (h : v.Init env fsys (some fs) = InitResult.ok out st) :
    st.pflags = fs := by
  obtain ⟨hcs, -⟩ := init_ok_inv v env fsys fs out st h
  have hfr := configStep_ok_frame v _ st fsys hcs
  rw [hfr]
  exact preState_pflags v fs

theorem init_ok_envEnabled (v : Viperlet) (env : EnvMap) (fsys : FileSys)
    (fs out : FlagSet) (st : ViperState)
    (h : v.Init env fsys (some fs) = InitResult.ok out st)
    (hb : v.bindEnv = true) : st.envEnabled = true := by
  obtain ⟨hcs, -⟩ := init_ok_inv v env fsys fs out st h
  have hfr := configStep_ok_frame v _ st fsys hcs
  rw [hfr]
  exact preState_envEnabled v (some fs) hb

/-! Helper lemmas about the store's layered lookup. -/

theorem find_of_changed (st : ViperState) (env : EnvMap) (k : String) (fl : PFlag)
    (hf : lookupFlag st.pflags k = some fl) (hch : fl.changed = true) (b : Bool) :
    st.find env k b = some fl.value := by
  unfold ViperState.find
  rw [hf]
  simp [hch, Option.or]

theorem find_of_env (st : ViperState) (env : EnvMap) (k : String) (fl : PFlag) (x : String)
    (hf : lookupFlag st.pflags k = some fl) (hch : fl.changed = false)
    (hen : st.envEnabled = true)
    (henv : lookupEnv env (st.envVarName k) = some x) (b : Bool) :
    st.find env k b = some x := by
  unfold ViperState.find
  rw [hf, hen]
  simp [hch, henv, Option.or]

/-! The claims. -/

/-- C1: for every flag name bound simultaneously on the command line (the
flag was changed), in the environment with environment binding enabled, and
in the configuration-file layer of the store, all with distinct non-empty
values, the flag's value after a successful Init equals the command-line
value: the precedence default < config file < environment < flag is
respected by the write-back step. -/
theorem C1_flag_value_wins
    (v : Viperlet) (env : EnvMap) (fsys : FileSys) (fs out : FlagSet)
    (st : ViperState) (k a b c : String) (fl : PFlag)
    (hrun : v.Init env fsys (some fs) = InitResult.ok out st)
    (hfl : lookupFlag fs k = some fl)
    (hch : fl.changed = true)
    (ha : fl.value = a)
    (hbe : v.bindEnv = true)
    (hb : lookupEnv env (st.envVarName k) = some b)
    (hc : lookupKV st.configData k = some c)
    (hane : a ≠ "") (hbne : b ≠ "") (hcne : c ≠ "")
    (hab : a ≠ b) (hac : a ≠ c) (hbc : b ≠ c) :
    (lookupFlag out k).map PFlag.value = some a := by
  obtain ⟨hcs, hout⟩ := init_ok_inv v env fsys fs out st hrun
  have hpf : st.pflags = fs := init_ok_pflags v env fsys fs out st hrun
  have hfl2 : lookupFlag st.pflags k = some fl := by rw [hpf]; exact hfl
  have hfind : ∀ bb, st.find env k bb = some fl.value :=
    fun bb => find_of_changed st env k fl hfl2 hch bb
  have hk : fl.name = k := lookupFlag_name fs k fl hfl
  subst hout
  rw [lookupFlag_writeBack, hfl]
  simp only [Option.map_some']
  unfold writeBackFlag
  rw [hk]
  simp [ViperState.IsSet, ViperState.GetString, hfind, ha, hane]

/-- C2: for every flag name not set on the command line (the flag is
unchanged) but present with a non-empty value in the environment, with
environment binding enabled, the flag's value after a successful Init
equals the environment value, even when the configuration file binds the
name to a different value. -/
theorem C2_env_fallback
    (v : Viperlet) (env : EnvMap) (fsys : FileSys) (fs out : FlagSet)
    (st : ViperState) (k b c : String) (fl : PFlag)
    (hrun : v.Init env fsys (some fs) = InitResult.ok out st)
    (hfl : lookupFlag fs k = some fl)
    (hch : fl.changed = false)
    (hbe : v.bindEnv = true)
    (hb : lookupEnv env (st.envVarName k) = some b)
    (hbne : b ≠ "")
    (hc : lookupKV st.configData k = some c)
    (hbc : b ≠ c) :
    (lookupFlag out k).map PFlag.value = some b := by
  obtain ⟨hcs, hout⟩ := init_ok_inv v env fsys fs out st hrun
  have hpf : st.pflags = fs := init_ok_pflags v env fsys fs out st hrun
  have hen : st.envEnabled = true := init_ok_envEnabled v env fsys fs out st hrun hbe
  have hfl2 : lookupFlag st.pflags k = some fl := by rw [hpf]; exact hfl
  have hfind : ∀ bb, st.find env k bb = some b :=
    fun bb => find_of_env st env k fl b hfl2 hch hen hb bb
  have hk : fl.name = k := lookupFlag_name fs k fl hfl
  subst hout
  rw [lookupFlag_writeBack, hfl]
  simp only [Option.map_some']
  unfold writeBackFlag
  rw [hk]
  simp [ViperState.IsSet, ViperState.GetString, hfind, hbne]

/-- C3: a flag whose resolved store value, read as text, is the empty
string is never overwritten by Init: after a successful Init the flag is
exactly as command-line parsing left it. -/
theorem C3_empty_guard
    (v : Viperlet) (env : EnvMap) (fsys : FileSys) (fs out : FlagSet)
    (st : ViperState) (k : String) (fl : PFlag)
    (hrun : v.Init env fsys (some fs) = InitResult.ok out st)
    (hfl : lookupFlag fs k = some fl)
    (hempty : st.GetString env k = "") :
    lookupFlag out k = some fl := by
  obtain ⟨-, hout⟩ := init_ok_inv v env fsys fs out st hrun
  have hk : fl.name = k := lookupFlag_name fs k fl hfl
  subst hout
  rw [lookupFlag_writeBack, hfl]
  simp only [Option.map_some']
  unfold writeBackFlag
  rw [hk, hempty]
  simp

/-- C7: a flag name bound nowhere except the flag's own compiled-in
default — unchanged on the command line, absent from the environment and
from the config-file layer — keeps its (non-empty) default value through a
successful Init. -/
theorem C7_default_preserved
    (v : Viperlet) (env : EnvMap) (fsys : FileSys) (fs out : FlagSet)
    (st : ViperState) (k : String) (fl : PFlag)
    (hrun : v.Init env fsys (some fs) = InitResult.ok out st)
    (hfl : lookupFlag fs k = some fl)
    (hch : fl.changed = false)
    (hvd : fl.value = fl.defValue)
    (hdne : fl.defValue ≠ "")
    (henv : lookupEnv env (st.envVarName k) = none)
    (hcfg : lookupKV st.configData k = none) :
    (lookupFlag out k).map PFlag.value = some fl.defValue := by
  obtain ⟨-, hout⟩ := init_ok_inv v env fsys fs out st hrun
  have hpf : st.pflags = fs := init_ok_pflags v env fsys fs out st hrun
  have hfl2 : lookupFlag st.pflags k = some fl := by rw [hpf]; exact hfl
  have hk : fl.name = k := lookupFlag_name fs k fl hfl
  have hfind : st.find env k false = none := by
    unfold ViperState.find
    rw [hfl2]
    simp [hch, hcfg, henv, Option.or]
  subst hout
  rw [lookupFlag_writeBack, hfl]
  simp only [Option.map_some']
  unfold writeBackFlag
  rw [hk]
  simp [ViperState.IsSet, hfind, hvd]

/-- C4: with a required (non-optional) configuration file path naming a
nonexistent file, Init returns the file-not-found error and performs no
flag write-back — the flag set it hands back is exactly the input flag set,
as command-line parsing assigned it. -/
theorem C4_required_config_missing
    (v : Viperlet) (env : EnvMap) (fsys : FileSys) (fs : FlagSet)
    (hcf : v.configFile ≠ "")
    (hreq : v.allowMissingConfig = false)
    (hmiss : fsys v.configFile = FileRead.missing) :
    v.Init env fsys (some fs) = InitResult.error InitError.configFileNotFound (some fs) := by
  have hb : (v.configFile != "") = true := by simpa using hcf
  simp [Viperlet.Init, Viperlet.configStep, hb, hmiss, hreq]

/-- C5: with an optional configuration file path naming a nonexistent file,
Init succeeds, and the flags are resolved purely from the flag, environment
and default layers — the run is identical to the run of the same Viperlet
with no configuration file path at all. -/
theorem C5_optional_config_missing
    (v : Viperlet) (env : EnvMap) (fsys : FileSys) (fs : FlagSet)
    (hcf : v.configFile ≠ "")
    (hopt : v.allowMissingConfig = true)
    (hmiss : fsys v.configFile = FileRead.missing) :
    v.Init env fsys (some fs)
      = InitResult.ok (writeBack (v.preState (some fs)) env fs) (v.preState (some fs))
    ∧ v.Init env fsys (some fs)
      = Viperlet.Init { v with configFile := "" } env fsys (some fs) := by
  have hb : (v.configFile != "") = true := by simpa using hcf
  constructor
  · simp [Viperlet.Init, Viperlet.configStep, hb, hmiss, hopt]
  · simp [Viperlet.Init, Viperlet.configStep, Viperlet.preState, hb, hmiss, hopt]

/-- C6: with a configuration file path set, a file that exists but fails to
read or parse makes Init return that error no matter whether the missing
file is allowed, and no flag write-back occurs — the flag set it hands back
is exactly the input flag set. -/
theorem C6_config_read_error
    (v : Viperlet) (env : EnvMap) (fsys : FileSys) (fs : FlagSet)
    (hcf : v.configFile ≠ "")
    (hread : fsys v.configFile = FileRead.readFailed) :
    v.Init env fsys (some fs) = InitResult.error InitError.configReadFailed (some fs) := by
  have hb : (v.configFile != "") = true := by simpa using hcf
  cases ham : v.allowMissingConfig <;>
    simp [Viperlet.Init, Viperlet.configStep, hb, hread, ham]

/-- C8: New applies its options in the order given, each directly mutating
its fields of the fresh Viperlet, so a later option overrides an earlier
one; in particular a trailing required-config option leaves the path with
missing-file intolerance and a trailing optional-config option leaves the
path with missing-file tolerance, whatever came before. -/
theorem C8_options_in_order_last_wins
    (opts : List VOption) (o : VOption) (c c' : String) :
    New (opts ++ [o]) = o.apply (New opts)
    ∧ (New (opts ++ [VOption.withConfig c])).configFile = c
    ∧ (New (opts ++ [VOption.withConfig c])).allowMissingConfig = false
    ∧ (New (opts ++ [VOption.withOptionalConfig c'])).configFile = c'
    ∧ (New (opts ++ [VOption.withOptionalConfig c'])).allowMissingConfig = true := by
  have happ : ∀ (o' : VOption), New (opts ++ [o']) = o'.apply (New opts) := by
    intro o'
    unfold New
    rw [List.foldl_append]
    rfl
  refine ⟨happ o, ?_, ?_, ?_, ?_⟩ <;> rw [happ] <;> rfl

theorem bindEnv_preserved (l : List VOption) :
    ∀ (v : Viperlet), v.bindEnv = true →
      (l.foldl (fun v o => o.apply v) v).bindEnv = true := by
  induction l with
  | nil => intro v h; exact h
  | cons o t ih =>
    intro v h
    apply ih
    cases o <;>
      simp [VOption.apply, WithViper, WithEnv, WithEnvPrefix, WithEnvKeyReplacer,
        WithConfig, WithOptionalConfig, h]

/-- C9: any Viperlet built by New from options among which the environment
prefix or the environment key transform was set has environment binding
enabled — those options enable it implicitly and no recognized option
disables it again. -/
theorem C9_env_options_enable_bindEnv (opts : List VOption)
    (h : (∃ p, VOption.withEnvPrefix p ∈ opts)
        ∨ (∃ r, VOption.withEnvKeyReplacer r ∈ opts)) :
    (New opts).bindEnv = true := by
  rcases h with ⟨p, hp⟩ | ⟨r, hr⟩
  · obtain ⟨s, t, hst⟩ := List.append_of_mem hp
    subst hst
    unfold New
    rw [List.foldl_append, List.foldl_cons]
    apply bindEnv_preserved
    simp [VOption.apply, WithEnvPrefix]
  · obtain ⟨s, t, hst⟩ := List.append_of_mem hr
    subst hst
    unfold New
    rw [List.foldl_append, List.foldl_cons]
    apply bindEnv_preserved
    simp [VOption.apply, WithEnvKeyReplacer]

/-- C10: Init with a nil flag set never returns normally — the nil guard
covers only the flag-binding step, and when the run reaches the final
unconditional VisitAll (in particular whenever no configuration file path
is set) it dereferences the nil flag set. -/
theorem C10_nil_flagset_deref (v : Viperlet) (env : EnvMap) (fsys : FileSys) :
    (∀ fs st, v.Init env fsys none ≠ InitResult.ok fs st)
    ∧ (v.configFile = "" → v.Init env fsys none = InitResult.nilDeref) := by
  constructor
  · intro fs st h
    unfold Viperlet.Init at h
    split at h
    · exact absurd h (by simp)
    · exact absurd h (by simp)
  · intro hcf
    simp [Viperlet.Init, Viperlet.configStep, hcf]

/-! Witnesses: each claim theorem applied at a concrete input. -/

/-- Witness for C1: flag `key` set on the command line to `A`, environment
variable `KEY` set to `B`, config file binding `key` to `C`; the run
succeeds and the flag keeps `A`. -/
theorem C1_witness :
    (New [VOption.withEnv, VOption.withConfig "cfg.yml"]).Init
        [("KEY", "B")]
        (fun p => if p == "cfg.yml" then FileRead.ok [("key", "C")] else FileRead.missing)
        (some [⟨"key", "A", "", true⟩])
      = InitResult.ok [⟨"key", "A", "", true⟩]
          { pflags := [⟨"key", "A", "", true⟩], envEnabled := true,
            configData := [("key", "C")] }
    ∧ (lookupFlag [⟨"key", "A", "", true⟩] "key").map PFlag.value = some "A" :=
  ⟨rfl,
    C1_flag_value_wins
      (New [VOption.withEnv, VOption.withConfig "cfg.yml"])
      [("KEY", "B")]
      (fun p => if p == "cfg.yml" then FileRead.ok [("key", "C")] else FileRead.missing)
      [⟨"key", "A", "", true⟩]
      [⟨"key", "A", "", true⟩]
      { pflags := [⟨"key", "A", "", true⟩], envEnabled := true,
        configData := [("key", "C")] }
      "key" "A" "B" "C" ⟨"key", "A", "", true⟩
      rfl rfl rfl rfl rfl rfl rfl
      (by decide) (by decide) (by decide) (by decide) (by decide) (by decide)⟩

/-- Witness for C2: flag `key` left at its empty default, environment
variable `KEY` set to `B`, config file binding `key` to `C`; the run
succeeds and the flag ends up with the environment value `B`. -/
theorem C2_witness :
    (New [VOption.withEnv, VOption.withConfig "cfg.yml"]).Init
        [("KEY", "B")]
        (fun p => if p == "cfg.yml" then FileRead.ok [("key", "C")] else FileRead.missing)
        (some [⟨"key", "", "", false⟩])
      = InitResult.ok [⟨"key", "B", "", true⟩]
          { pflags := [⟨"key", "", "", false⟩], envEnabled := true,
            configData := [("key", "C")] }
    ∧ (lookupFlag [⟨"key", "B", "", true⟩] "key").map PFlag.value = some "B" :=
  ⟨rfl,
    C2_env_fallback
      (New [VOption.withEnv, VOption.withConfig "cfg.yml"])
      [("KEY", "B")]
      (fun p => if p == "cfg.yml" then FileRead.ok [("key", "C")] else FileRead.missing)
      [⟨"key", "", "", false⟩]
      [⟨"key", "B", "", true⟩]
      { pflags := [⟨"key", "", "", false⟩], envEnabled := true,
        configData := [("key", "C")] }
      "key" "B" "C" ⟨"key", "", "", false⟩
      rfl rfl rfl rfl rfl (by decide) rfl (by decide)⟩

/-- Witness for C3: environment variable `KEY` is set but empty, so the
store resolves `key` to empty text; the flag keeps its parsed state. -/
theorem C3_witness :
    ViperState.GetString
        { pflags := [⟨"key", "D", "D", false⟩], envEnabled := true }
        [("KEY", "")] "key" = ""
    ∧ lookupFlag [⟨"key", "D", "D", false⟩] "key" = some ⟨"key", "D", "D", false⟩ :=
  ⟨rfl,
    C3_empty_guard
      (New [VOption.withEnv])
      [("KEY", "")]
      (fun _ => FileRead.missing)
      [⟨"key", "D", "D", false⟩]
      [⟨"key", "D", "D", false⟩]
      { pflags := [⟨"key", "D", "D", false⟩], envEnabled := true }
      "key" ⟨"key", "D", "D", false⟩
      rfl rfl rfl⟩

/-- Witness for C4: a required config file that the file system reports
missing makes Init fail with the file-not-found error, handing back the
input flags untouched. -/
theorem C4_witness :
    (New [VOption.withConfig "missing.yml"]).allowMissingConfig = false
    ∧ (New [VOption.withConfig "missing.yml"]).Init [] (fun _ => FileRead.missing)
        (some [⟨"example", "from command line", "", true⟩])
      = InitResult.error InitError.configFileNotFound
          (some [⟨"example", "from command line", "", true⟩]) :=
  ⟨rfl,
    C4_required_config_missing
      (New [VOption.withConfig "missing.yml"]) [] (fun _ => FileRead.missing)
      [⟨"example", "from command line", "", true⟩]
      (by decide) rfl rfl⟩

/-- Witness for C5: an optional config file that the file system reports
missing leaves Init successful, the flags resolved without a file layer. -/
theorem C5_witness :
    (New [VOption.withOptionalConfig "missing.yml"]).allowMissingConfig = true
    ∧ (New [VOption.withOptionalConfig "missing.yml"]).Init [] (fun _ => FileRead.missing)
        (some [⟨"example", "from command line", "", true⟩])
      = InitResult.ok [⟨"example", "from command line", "", true⟩]
          { pflags := [⟨"example", "from command line", "", true⟩] } :=
  ⟨rfl,
    (C5_optional_config_missing
      (New [VOption.withOptionalConfig "missing.yml"]) [] (fun _ => FileRead.missing)
      [⟨"example", "from command line", "", true⟩]
      (by decide) rfl rfl).1⟩

/-- Witness for C6: a config file that fails to read or parse makes Init
fail with the read error even though the Viperlet tolerates a missing
file, handing back the input flags untouched. -/
theorem C6_witness :
    (New [VOption.withOptionalConfig "bad.yml"]).allowMissingConfig = true
    ∧ (New [VOption.withOptionalConfig "bad.yml"]).Init [] (fun _ => FileRead.readFailed)
        (some [⟨"example", "from command line", "", true⟩])
      = InitResult.error InitError.configReadFailed
          (some [⟨"example", "from command line", "", true⟩]) :=
  ⟨rfl,
    C6_config_read_error
      (New [VOption.withOptionalConfig "bad.yml"]) [] (fun _ => FileRead.readFailed)
      [⟨"example", "from command line", "", true⟩]
      (by decide) rfl⟩

/-- Witness for C7: flag `key` with non-empty default `D`, nothing in the
environment or the config data; after the successful run the flag still
holds `D`. -/
theorem C7_witness :
    lookupEnv []
        (ViperState.envVarName
          { pflags := [⟨"key", "D", "D", false⟩], envEnabled := true } "key") = none
    ∧ (lookupFlag [⟨"key", "D", "D", false⟩] "key").map PFlag.value = some "D" :=
  ⟨rfl,
    C7_default_preserved
      (New [VOption.withEnv]) [] (fun _ => FileRead.missing)
      [⟨"key", "D", "D", false⟩]
      [⟨"key", "D", "D", false⟩]
      { pflags := [⟨"key", "D", "D", false⟩], envEnabled := true }
      "key" ⟨"key", "D", "D", false⟩
      rfl rfl rfl rfl (by decide) rfl rfl⟩

/-- Witness for C9: building with only the environment-prefix option
leaves environment binding enabled. -/
theorem C9_witness :
    VOption.withEnvPrefix "app" ∈ [VOption.withEnvPrefix "app"]
    ∧ (New [VOption.withEnvPrefix "app"]).bindEnv = true :=
  ⟨by simp,
    C9_env_options_enable_bindEnv [VOption.withEnvPrefix "app"]
      (Or.inl ⟨"app", by simp⟩)⟩

/-- Witness for C10: the option-free Viperlet has no config file set, and
running Init on a nil flag set reaches the nil dereference. -/
theorem C10_witness :
    (New []).configFile = ""
    ∧ (New []).Init [] (fun _ => FileRead.missing) none = InitResult.nilDeref :=
  ⟨rfl,
    (C10_nil_flagset_deref (New []) [] (fun _ => FileRead.missing)).2 rfl⟩
